import Mathlib

/-!
Verification of the metrics/aggregation core of the CoReC repository
(`observability.py`): `ExecutionMetrics`, `WorkflowMetrics` and
`MetricsCollector`, shallowly embedded in Lean 4.

Modelling conventions:
* Python `datetime` timestamps are modelled as rationals (seconds since an
  arbitrary epoch), so `(end_time - start_time).total_seconds()` becomes
  plain subtraction in `ℚ`.  Python floats are modelled as `ℚ`.
* `end_time: datetime = None` becomes `Option ℚ`; the truthiness test
  `if self.end_time:` becomes a match on the option (a `datetime` value is
  always truthy, `None` is falsy).
* Byte sizes are Python `int`s, modelled as `Int`.
* The logger and file/HTML output are side effects with no bearing on the
  metric values and are omitted; `to_dict` timestamp ISO formatting is
  modelled by carrying the timestamp value itself.
-/

/-- `AgentType` enum from `observability.py`. -/
inductive AgentType where
  | serial
  | parallel
  | coordinator
deriving DecidableEq, Repr

/-- The `.value` string of the `AgentType` enum. -/
def AgentType.value : AgentType → String
  | .serial => "serial"
  | .parallel => "parallel"
  | .coordinator => "coordinator"

/-- `ExecutionMetrics` dataclass: metrics for one agent execution. -/
structure ExecutionMetrics where
  agent_name : String
  agent_type : AgentType
  start_time : ℚ
  end_time : Option ℚ := none
  duration : ℚ := 0
  success : Bool := true
  error_message : String := ""
  inputs_size : Int := 0
  outputs_size : Int := 0
deriving DecidableEq, Repr

/-- `ExecutionMetrics.calculate_duration`: if `end_time` is set, store
`end_time - start_time` in `duration`; return the (possibly updated)
record together with the returned duration value. -/
def ExecutionMetrics.calculate_duration (m : ExecutionMetrics) :
    ExecutionMetrics × ℚ :=
  match m.end_time with
  | some e =>
      let m' := { m with duration := e - m.start_time }
      (m', m'.duration)
  | none => (m, m.duration)

/-- Serialized form of an `ExecutionMetrics` (its `to_dict`). -/
structure ExecutionMetricsDict where
  agent_name : String
  agent_type : String
  start_time : ℚ
  end_time : Option ℚ
  duration_seconds : ℚ
  success : Bool
  error_message : String
  inputs_size_bytes : Int
  outputs_size_bytes : Int
deriving DecidableEq, Repr

/-- `ExecutionMetrics.to_dict`. -/
def ExecutionMetrics.to_dict (m : ExecutionMetrics) : ExecutionMetricsDict :=
  { agent_name := m.agent_name
    agent_type := m.agent_type.value
    start_time := m.start_time
    end_time := m.end_time
    duration_seconds := m.duration
    success := m.success
    error_message := m.error_message
    inputs_size_bytes := m.inputs_size
    outputs_size_bytes := m.outputs_size }

/-- `WorkflowMetrics` dataclass: metrics for an entire workflow. -/
structure WorkflowMetrics where
  workflow_name : String
  start_time : ℚ
  end_time : Option ℚ := none
  duration : ℚ := 0
  agents : List ExecutionMetrics := []
  total_inputs_size : Int := 0
  total_outputs_size : Int := 0
  success : Bool := true
  error_message : String := ""
deriving DecidableEq, Repr

/-- `WorkflowMetrics.add_agent_metrics`: append the record and add its
sizes to the running totals.  The source performs no lifecycle check. -/
def WorkflowMetrics.add_agent_metrics (w : WorkflowMetrics)
    (m : ExecutionMetrics) : WorkflowMetrics :=
  { w with
    agents := w.agents ++ [m]
    total_inputs_size := w.total_inputs_size + m.inputs_size
    total_outputs_size := w.total_outputs_size + m.outputs_size }

/-- `WorkflowMetrics.finalize`: if `end_time` is set, store
`end_time - start_time` in `duration`. -/
def WorkflowMetrics.finalize (w : WorkflowMetrics) : WorkflowMetrics :=
  match w.end_time with
  | some e => { w with duration := e - w.start_time }
  | none => w

/-- Left fold of binary `max`, mirroring Python `max(...)` over a
non-empty iterable with first element `x` and remaining elements `l`. -/
def listMax (x : ℚ) : List ℚ → ℚ
  | [] => x
  | y :: ys => listMax (max x y) ys

/-- `max(agent.duration for agent in self.agents)` for a non-empty agent
list (0 for the empty list, where the source never evaluates it). -/
def WorkflowMetrics.maxAgentDuration (w : WorkflowMetrics) : ℚ :=
  match w.agents with
  | [] => 0
  | a :: rest => listMax a.duration (rest.map (fun r => r.duration))

/-- `sum(agent.duration for agent in self.agents)`. -/
def WorkflowMetrics.totalAgentDuration (w : WorkflowMetrics) : ℚ :=
  (w.agents.map (fun r => r.duration)).sum

/-- `WorkflowMetrics.get_parallel_efficiency`: 0 for an empty agent list,
0 when the total duration is 0, otherwise
`(total / (max_duration * count)) * 100`. -/
def WorkflowMetrics.get_parallel_efficiency (w : WorkflowMetrics) : ℚ :=
  if w.agents = [] then 0
  else if w.totalAgentDuration = 0 then 0
  else (w.totalAgentDuration /
        (w.maxAgentDuration * (w.agents.length : ℚ))) * 100

/-- Serialized form of a `WorkflowMetrics` (its `to_dict`). -/
structure WorkflowMetricsDict where
  workflow_name : String
  start_time : ℚ
  end_time : Option ℚ
  total_duration_seconds : ℚ
  agents : List ExecutionMetricsDict
  total_inputs_size_bytes : Int
  total_outputs_size_bytes : Int
  workflow_success : Bool
  error_message : String
  parallel_efficiency_percent : ℚ
deriving DecidableEq, Repr

/-- `WorkflowMetrics.to_dict`. -/
def WorkflowMetrics.to_dict (w : WorkflowMetrics) : WorkflowMetricsDict :=
  { workflow_name := w.workflow_name
    start_time := w.start_time
    end_time := w.end_time
    total_duration_seconds := w.duration
    agents := w.agents.map ExecutionMetrics.to_dict
    total_inputs_size_bytes := w.total_inputs_size
    total_outputs_size_bytes := w.total_outputs_size
    workflow_success := w.success
    error_message := w.error_message
    parallel_efficiency_percent := w.get_parallel_efficiency }

/-- `MetricsCollector` state: the ordered list of finalized workflows.
The logger is omitted. -/
structure MetricsCollector where
  workflows : List WorkflowMetrics := []
deriving DecidableEq, Repr

/-- `MetricsCollector.create_workflow`: a fresh `WorkflowMetrics` with the
given name and the current timestamp (passed explicitly). -/
def MetricsCollector.create_workflow (workflow_name : String) (now : ℚ) :
    WorkflowMetrics :=
  { workflow_name := workflow_name, start_time := now }

/-- `MetricsCollector.finalize_workflow`: set the workflow's `end_time` to
now, call `finalize`, and append it to `workflows`.  Returns the updated
collector together with the updated workflow. -/
def MetricsCollector.finalize_workflow (c : MetricsCollector)
    (w : WorkflowMetrics) (now : ℚ) : MetricsCollector × WorkflowMetrics :=
  let w' := WorkflowMetrics.finalize { w with end_time := some now }
  ({ workflows := c.workflows ++ [w'] }, w')

/-- The summary mapping returned by `MetricsCollector.get_summary`. -/
structure Summary where
  total_workflows : Nat
  total_agents_executed : Nat
  total_time : ℚ
  workflows : List WorkflowMetricsDict
deriving DecidableEq, Repr

/-- `MetricsCollector.get_summary`. -/
def MetricsCollector.get_summary (c : MetricsCollector) : Summary :=
  { total_workflows := c.workflows.length
    total_agents_executed := (c.workflows.map (fun w => w.agents.length)).sum
    total_time := (c.workflows.map (fun w => w.duration)).sum
    workflows := c.workflows.map WorkflowMetrics.to_dict }

/-- `get_summary` viewed as a state-passing operation: it reads the
collector and leaves it unchanged (the source mutates nothing). -/
def MetricsCollector.get_summary_run (c : MetricsCollector) :
    Summary × MetricsCollector :=
  (c.get_summary, c)

/-! ### Helper lemmas about `listMax` and list sums -/

/-- The seed is a lower bound of the `max`-fold. -/
lemma le_listMax (x : ℚ) (l : List ℚ) : x ≤ listMax x l := by
  induction l generalizing x with
  | nil => exact le_refl x
  | cons y ys ih => exact le_trans (le_max_left x y) (ih (max x y))

/-- Every list element is a lower bound of the `max`-fold. -/
lemma mem_le_listMax {a : ℚ} (x : ℚ) {l : List ℚ} (h : a ∈ l) :
    a ≤ listMax x l := by
  induction l generalizing x with
  | nil => cases h
  | cons y ys ih =>
    rcases List.mem_cons.mp h with h1 | h2
    · subst h1
      exact le_trans (le_max_right x a) (le_listMax (max x a) ys)
    · exact ih (max x y) h2

/-- A sum of list elements each bounded by `m` is at most `length * m`. -/
lemma sum_le_length_mul {l : List ℚ} {m : ℚ} (h : ∀ a ∈ l, a ≤ m) :
    l.sum ≤ (l.length : ℚ) * m := by
  induction l with
  | nil => simp
  | cons y ys ih =>
    have h1 : y ≤ m := h y (List.mem_cons_self y ys)
    have h2 := ih (fun a ha => h a (List.mem_cons_of_mem y ha))
    simp only [List.sum_cons, List.length_cons]
    push_cast
    linarith

/-- Every agent duration is bounded by `maxAgentDuration`. -/
lemma duration_le_max {w : WorkflowMetrics} {x : ℚ}
    (hx : x ∈ w.agents.map (fun r => r.duration)) :
    x ≤ w.maxAgentDuration := by
  unfold WorkflowMetrics.maxAgentDuration
  cases hw : w.agents with
  | nil => rw [hw] at hx; cases hx
  | cons a rest =>
    rw [hw] at hx
    simp only [List.map_cons, List.mem_cons] at hx
    rcases hx with h1 | h2
    · subst h1
      exact le_listMax _ _
    · exact mem_le_listMax _ h2

/-- The total duration is bounded by `count * maxAgentDuration`. -/
lemma total_le_length_mul_max (w : WorkflowMetrics) :
    w.totalAgentDuration ≤ (w.agents.length : ℚ) * w.maxAgentDuration := by
  have h := sum_le_length_mul (l := w.agents.map (fun r => r.duration))
    (m := w.maxAgentDuration) (fun a ha => duration_le_max ha)
  simpa [WorkflowMetrics.totalAgentDuration] using h

/-- Folding `add_agent_metrics` over a record list appends the records and
adds their sizes to the running totals. -/
lemma foldl_add_agent_metrics (ms : List ExecutionMetrics) :
    ∀ w : WorkflowMetrics,
    (ms.foldl WorkflowMetrics.add_agent_metrics w).total_inputs_size =
      w.total_inputs_size + (ms.map (fun r => r.inputs_size)).sum ∧
    (ms.foldl WorkflowMetrics.add_agent_metrics w).total_outputs_size =
      w.total_outputs_size + (ms.map (fun r => r.outputs_size)).sum ∧
    (ms.foldl WorkflowMetrics.add_agent_metrics w).agents =
      w.agents ++ ms := by
  induction ms with
  | nil => intro w; simp
  | cons m rest ih =>
    intro w
    obtain ⟨h1, h2, h3⟩ := ih (w.add_agent_metrics m)
    refine ⟨?_, ?_, ?_⟩
    · rw [List.foldl_cons, h1]
      simp [WorkflowMetrics.add_agent_metrics]
      ring
    · rw [List.foldl_cons, h2]
      simp [WorkflowMetrics.add_agent_metrics]
      ring
    · rw [List.foldl_cons, h3]
      simp [WorkflowMetrics.add_agent_metrics]

/-! ### Concrete sample data used by witnesses and counterexamples -/

/-- A parallel-agent record with the given name and duration. -/
def mkAgent (agent_name : String) (dur : ℚ) : ExecutionMetrics :=
  { agent_name := agent_name, agent_type := .parallel, start_time := 0,
    duration := dur }

/-- A parallel-agent record with the given name and payload sizes. -/
def mkSized (agent_name : String) (i o : Int) : ExecutionMetrics :=
  { agent_name := agent_name, agent_type := .parallel, start_time := 0,
    inputs_size := i, outputs_size := o }

/-- Workflow with three records of durations 1, 2 and 3 (Scenario B). -/
def w123 : WorkflowMetrics :=
  { workflow_name := "wf", start_time := 0,
    agents := [mkAgent "a1" 1, mkAgent "a2" 2, mkAgent "a3" 3] }

/-- Workflow with no records. -/
def wEmpty : WorkflowMetrics := { workflow_name := "e", start_time := 0 }

/-- Workflow with one record of duration 0. -/
def wZero : WorkflowMetrics :=
  { workflow_name := "z", start_time := 0, agents := [mkAgent "a" 0] }

/-- Workflow with exactly one record, of positive duration 5. -/
def wOne : WorkflowMetrics :=
  { workflow_name := "o", start_time := 0, agents := [mkAgent "solo" 5] }

/-- A finalized workflow: its `end_time` is set. -/
def wFin : WorkflowMetrics :=
  { workflow_name := "f", start_time := 0, end_time := some 5 }

/-- An un-finalized workflow started at time 2. -/
def wUnfin : WorkflowMetrics := { workflow_name := "u", start_time := 2 }

/-- An empty collector. -/
def cEmpty : MetricsCollector := {}

/-- A record whose clock yielded a negative delta: started at 10,
ended at 4. -/
def mNeg : ExecutionMetrics :=
  { agent_name := "m", agent_type := .serial, start_time := 10,
    end_time := some 4 }

/-- A record with a positive delta: started at 1, ended at 4. -/
def mPos : ExecutionMetrics :=
  { agent_name := "p", agent_type := .serial, start_time := 1,
    end_time := some 4 }

/-! ### Claim theorems -/

/-- C1: for every workflow with a non-empty record list whose durations are
non-negative and whose total duration is positive, `get_parallel_efficiency`
returns exactly `(sum of durations / (max duration * record count)) * 100`. -/
theorem claim_C1_efficiency_formula (w : WorkflowMetrics)
    (hne : w.agents ≠ [])
    (hnn : ∀ a ∈ w.agents, 0 ≤ a.duration)
    (hpos : 0 < w.totalAgentDuration) :
    w.get_parallel_efficiency =
      ((w.agents.map (fun r => r.duration)).sum /
        (w.maxAgentDuration * (w.agents.length : ℚ))) * 100 := by
  unfold WorkflowMetrics.get_parallel_efficiency
  rw [if_neg hne, if_neg (ne_of_gt hpos)]
  rfl

/-- C1 witness: for durations 1, 2, 3 the efficiency is exactly
`(6/9) * 100`. -/
theorem claim_C1_efficiency_formula_witness :
    w123.agents ≠ [] ∧ (∀ a ∈ w123.agents, 0 ≤ a.duration) ∧
    0 < w123.totalAgentDuration ∧
    w123.get_parallel_efficiency = (6 / 9) * 100 := by
  have hne : w123.agents ≠ [] := by simp [w123]
  have hnn : ∀ a ∈ w123.agents, 0 ≤ a.duration := by
    norm_num [w123, mkAgent]
  have hpos : 0 < w123.totalAgentDuration := by
    norm_num [w123, mkAgent, WorkflowMetrics.totalAgentDuration]
  have heff := claim_C1_efficiency_formula w123 hne hnn hpos
  have hmax : w123.maxAgentDuration = 3 := by
    norm_num [w123, mkAgent, WorkflowMetrics.maxAgentDuration, listMax,
      max_def]
  have hsum : (w123.agents.map (fun r => r.duration)).sum = 6 := by
    norm_num [w123, mkAgent]
  have hlen : (w123.agents.length : ℚ) = 3 := by norm_num [w123]
  refine ⟨hne, hnn, hpos, ?_⟩
  rw [heff, hmax, hsum, hlen]
  norm_num

/-- C2: `get_parallel_efficiency` returns 0 for an empty record list and 0
when the total duration is 0; under non-negative durations, a zero maximum
duration forces the total to be 0, so the guard returns 0 before the
division is reached. -/
theorem claim_C2_no_div_by_zero (w : WorkflowMetrics) :
    (w.agents = [] → w.get_parallel_efficiency = 0) ∧
    (w.totalAgentDuration = 0 → w.get_parallel_efficiency = 0) ∧
    ((∀ a ∈ w.agents, 0 ≤ a.duration) → w.maxAgentDuration = 0 →
      w.totalAgentDuration = 0 ∧ w.get_parallel_efficiency = 0) := by
  refine ⟨?_, ?_, ?_⟩
  · intro h
    simp [WorkflowMetrics.get_parallel_efficiency, h]
  · intro h
    simp [WorkflowMetrics.get_parallel_efficiency, h]
  · intro hnn hmax
    have hle := total_le_length_mul_max w
    rw [hmax, mul_zero] at hle
    have hge : 0 ≤ w.totalAgentDuration := by
      unfold WorkflowMetrics.totalAgentDuration
      apply List.sum_nonneg
      intro x hx
      obtain ⟨r, hr, hrx⟩ := List.mem_map.mp hx
      exact hrx ▸ hnn r hr
    have htot : w.totalAgentDuration = 0 := le_antisymm hle hge
    exact ⟨htot, by simp [WorkflowMetrics.get_parallel_efficiency, htot]⟩

/-- C2 witness: the empty workflow and the all-instantaneous workflow both
yield efficiency 0. -/
theorem claim_C2_no_div_by_zero_witness :
    wEmpty.get_parallel_efficiency = 0 ∧
    (wZero.totalAgentDuration = 0 ∧ wZero.get_parallel_efficiency = 0) :=
  ⟨(claim_C2_no_div_by_zero wEmpty).1 rfl,
   (claim_C2_no_div_by_zero wZero).2.2 (by decide) (by decide)⟩

/-- C3 counterexample: the claim says the stored duration is never
negative (clamped to 0 on a negative clock delta), but for a record
started at 10 and ended at 4 `calculate_duration` stores `-6 < 0` —
the source has no clamp. -/
theorem claim_C3_counterexample :
    mNeg.end_time = some 4 ∧
    (mNeg.calculate_duration).1.duration < 0 := by
  refine ⟨rfl, ?_⟩
  norm_num [mNeg, ExecutionMetrics.calculate_duration]

/-- C3 (amended): whenever `end_time` is set, `calculate_duration` stores
and returns exactly `end_time - start_time` in seconds, with no clamping —
the value is negative whenever `end_time` precedes `start_time`. -/
theorem claim_C3_amended_duration (m : ExecutionMetrics) (e : ℚ)
    (h : m.end_time = some e) :
    (m.calculate_duration).1.duration = e - m.start_time ∧
    (m.calculate_duration).2 = e - m.start_time := by
  simp [ExecutionMetrics.calculate_duration, h]

/-- C3 (amended) witness: a record started at 1 and ended at 4 stores
duration `4 - 1`. -/
theorem claim_C3_amended_duration_witness :
    (mPos.calculate_duration).1.duration = 4 - mPos.start_time ∧
    (mPos.calculate_duration).2 = 4 - mPos.start_time :=
  claim_C3_amended_duration mPos 4 rfl

/-- C4 counterexample: the claim says `add_agent_metrics` on a finalized
workflow raises and leaves the aggregate unchanged, but the source has no
finalization check: on a workflow with `end_time` set it appends the
record, changing the aggregate. -/
theorem claim_C4_counterexample :
    wFin.end_time = some 5 ∧
    (wFin.add_agent_metrics (mkAgent "x" 1)).agents =
      wFin.agents ++ [mkAgent "x" 1] ∧
    wFin.add_agent_metrics (mkAgent "x" 1) ≠ wFin := by decide

/-- C4 (amended): `add_agent_metrics` performs no lifecycle check: even on
a finalized workflow (`end_time` set) it appends the record, adds its sizes
to the totals, and raises no error. -/
theorem claim_C4_amended_no_state_check (w : WorkflowMetrics)
    (m : ExecutionMetrics) (e : ℚ) (h : w.end_time = some e) :
    (w.add_agent_metrics m).agents = w.agents ++ [m] ∧
    (w.add_agent_metrics m).total_inputs_size =
      w.total_inputs_size + m.inputs_size ∧
    (w.add_agent_metrics m).total_outputs_size =
      w.total_outputs_size + m.outputs_size ∧
    (w.add_agent_metrics m).end_time = w.end_time :=
  ⟨rfl, rfl, rfl, rfl⟩

/-- C4 (amended) witness: adding to the concrete finalized workflow `wFin`
appends and updates totals. -/
theorem claim_C4_amended_no_state_check_witness :
    (wFin.add_agent_metrics (mkAgent "y" 2)).agents =
      wFin.agents ++ [mkAgent "y" 2] ∧
    (wFin.add_agent_metrics (mkAgent "y" 2)).total_inputs_size =
      wFin.total_inputs_size + (mkAgent "y" 2).inputs_size ∧
    (wFin.add_agent_metrics (mkAgent "y" 2)).total_outputs_size =
      wFin.total_outputs_size + (mkAgent "y" 2).outputs_size ∧
    (wFin.add_agent_metrics (mkAgent "y" 2)).end_time = wFin.end_time :=
  claim_C4_amended_no_state_check wFin (mkAgent "y" 2) 5 rfl

/-- C5: for every sequence of `add_agent_metrics` calls starting from a
freshly started workflow, the running totals equal the sums of the records'
sizes; in particular three records with input sizes 100, 200, 300 and
output sizes 200, 400, 600 yield totals 600 and 1200. -/
theorem claim_C5_running_totals :
    (∀ (name : String) (now : ℚ) (ms : List ExecutionMetrics),
      (ms.foldl WorkflowMetrics.add_agent_metrics
        (MetricsCollector.create_workflow name now)).agents = ms ∧
      (ms.foldl WorkflowMetrics.add_agent_metrics
        (MetricsCollector.create_workflow name now)).total_inputs_size =
        (ms.map (fun r => r.inputs_size)).sum ∧
      (ms.foldl WorkflowMetrics.add_agent_metrics
        (MetricsCollector.create_workflow name now)).total_outputs_size =
        (ms.map (fun r => r.outputs_size)).sum) ∧
    (([mkSized "a" 100 200, mkSized "b" 200 400,
        mkSized "c" 300 600].foldl WorkflowMetrics.add_agent_metrics
        (MetricsCollector.create_workflow "wf" 0)).total_inputs_size = 600 ∧
      ([mkSized "a" 100 200, mkSized "b" 200 400,
        mkSized "c" 300 600].foldl WorkflowMetrics.add_agent_metrics
        (MetricsCollector.create_workflow "wf" 0)).total_outputs_size =
        1200) := by
  constructor
  · intro name now ms
    obtain ⟨h1, h2, h3⟩ :=
      foldl_add_agent_metrics ms (MetricsCollector.create_workflow name now)
    refine ⟨?_, ?_, ?_⟩
    · rw [h3]
      simp [MetricsCollector.create_workflow]
    · rw [h1]
      simp [MetricsCollector.create_workflow]
    · rw [h2]
      simp [MetricsCollector.create_workflow]
  · exact ⟨by decide, by decide⟩

/-- C6: a workflow containing exactly one record with positive duration
has parallel efficiency exactly 100. -/
theorem claim_C6_single_record (w : WorkflowMetrics) (a : ExecutionMetrics)
    (h : w.agents = [a]) (hd : 0 < a.duration) :
    w.get_parallel_efficiency = 100 := by
  have hne : w.agents ≠ [] := by rw [h]; simp
  have htot : w.totalAgentDuration = a.duration := by
    simp [WorkflowMetrics.totalAgentDuration, h]
  have hmax : w.maxAgentDuration = a.duration := by
    unfold WorkflowMetrics.maxAgentDuration
    rw [h]
    rfl
  unfold WorkflowMetrics.get_parallel_efficiency
  rw [if_neg hne, if_neg (by rw [htot]; exact ne_of_gt hd)]
  rw [htot, hmax, h]
  have hne0 : a.duration ≠ 0 := ne_of_gt hd
  simp [hne0]

/-- C6 witness: a workflow with a single record of duration 5 has
efficiency 100. -/
theorem claim_C6_single_record_witness : wOne.get_parallel_efficiency = 100 :=
  claim_C6_single_record wOne (mkAgent "solo" 5) rfl (by decide)

/-- C7: `get_summary` reports the number of registered workflows, the sum
of their record counts, the sum of their durations, and the serialized form
of every registered workflow in registration order. -/
theorem claim_C7_summary_fields (c : MetricsCollector) :
    (c.get_summary).total_workflows = c.workflows.length ∧
    (c.get_summary).total_agents_executed =
      (c.workflows.map (fun w => w.agents.length)).sum ∧
    (c.get_summary).total_time = (c.workflows.map (fun w => w.duration)).sum ∧
    (c.get_summary).workflows = c.workflows.map WorkflowMetrics.to_dict :=
  ⟨rfl, rfl, rfl, rfl⟩

/-- C8: on an un-finalized workflow, `finalize_workflow` sets `end_time`,
computes `duration = end_time - start_time`, and appends the workflow to
the collector's list, so the list grows append-only in finalization
order. -/
theorem claim_C8_finalize_appends (c : MetricsCollector)
    (w : WorkflowMetrics) (now : ℚ) (h : w.end_time = none) :
    (c.finalize_workflow w now).2.end_time = some now ∧
    (c.finalize_workflow w now).2.duration = now - w.start_time ∧
    (c.finalize_workflow w now).1.workflows =
      c.workflows ++ [(c.finalize_workflow w now).2] :=
  ⟨rfl, rfl, rfl⟩

/-- C8 witness: finalizing the un-finalized workflow `wUnfin` at time 7 on
the empty collector. -/
theorem claim_C8_finalize_appends_witness :
    (cEmpty.finalize_workflow wUnfin 7).2.end_time = some 7 ∧
    (cEmpty.finalize_workflow wUnfin 7).2.duration = 7 - wUnfin.start_time ∧
    (cEmpty.finalize_workflow wUnfin 7).1.workflows =
      cEmpty.workflows ++ [(cEmpty.finalize_workflow wUnfin 7).2] :=
  claim_C8_finalize_appends cEmpty wUnfin 7 rfl

/-- C9: under non-negative record durations the parallel efficiency lies
in the closed interval [0, 100]. -/
theorem claim_C9_efficiency_bounds (w : WorkflowMetrics)
    (hnn : ∀ a ∈ w.agents, 0 ≤ a.duration) :
    0 ≤ w.get_parallel_efficiency ∧ w.get_parallel_efficiency ≤ 100 := by
  unfold WorkflowMetrics.get_parallel_efficiency
  split
  · exact ⟨le_refl 0, by norm_num⟩
  · split
    · exact ⟨le_refl 0, by norm_num⟩
    · rename_i hne htot
      have hge : 0 ≤ w.totalAgentDuration := by
        unfold WorkflowMetrics.totalAgentDuration
        apply List.sum_nonneg
        intro x hx
        obtain ⟨r, hr, hrx⟩ := List.mem_map.mp hx
        exact hrx ▸ hnn r hr
      have hpos : 0 < w.totalAgentDuration := lt_of_le_of_ne hge (Ne.symm htot)
      have hlen : 0 < (w.agents.length : ℚ) := by
        have h0 : 0 < w.agents.length := List.length_pos.mpr hne
        exact_mod_cast h0
      have hle := total_le_length_mul_max w
      have hmaxpos : 0 < w.maxAgentDuration := by
        by_contra hcon
        push_neg at hcon
        have hnp : (w.agents.length : ℚ) * w.maxAgentDuration ≤ 0 :=
          mul_nonpos_of_nonneg_of_nonpos (le_of_lt hlen) hcon
        linarith
      have hdenpos : 0 < w.maxAgentDuration * (w.agents.length : ℚ) :=
        mul_pos hmaxpos hlen
      have hdivpos : 0 < w.totalAgentDuration /
          (w.maxAgentDuration * (w.agents.length : ℚ)) :=
        div_pos hpos hdenpos
      have hdivle : w.totalAgentDuration /
          (w.maxAgentDuration * (w.agents.length : ℚ)) ≤ 1 := by
        rw [div_le_one hdenpos]
        calc w.totalAgentDuration
            ≤ (w.agents.length : ℚ) * w.maxAgentDuration := hle
          _ = w.maxAgentDuration * (w.agents.length : ℚ) := by ring
      constructor
      · linarith
      · linarith

/-- C9 witness: the workflow with durations 1, 2, 3 has efficiency in
[0, 100]. -/
theorem claim_C9_efficiency_bounds_witness :
    0 ≤ w123.get_parallel_efficiency ∧ w123.get_parallel_efficiency ≤ 100 :=
  claim_C9_efficiency_bounds w123 (by decide)

/-- C10: `get_summary` leaves the collector unchanged, so calling it twice
on an unchanged collector yields identical output both times. -/
theorem claim_C10_summary_idempotent (c : MetricsCollector) :
    c.get_summary_run.2 = c ∧
    (c.get_summary_run.2).get_summary = c.get_summary :=
  ⟨rfl, rfl⟩
